import Mathlib

/-!
Shallow embedding of the StegaScan detection engine and proofs about its
specification claims.  The definitions translate the Rust sources:

* `src/analyzers/src/magic_bytes_analyzer.rs` (signature scanner),
* `src/analyzers/src/lsb_analyzer.rs` (bit-plane / LSB analyzer),
* `src/analyzers/src/video_frame_analyzer.rs` (frame sampler),
* `src/analyzers/src/spectrogram_analyzer.rs` (spectral analyzer),
* `src/steg_cli/src/json_report.rs` and `src/steg_cli/src/main.rs`
  (report aggregation).

Bytes are modelled as `ℕ` (values < 256), `f64`/`f32` values as `ℝ`;
where an IEEE division by zero matters the result is modelled by the
explicit type `FpVal` with `nan`/`inf` constructors.  File reading,
binwalk, image decoding and FFT are external collaborators; functions are
parameterised over their outputs.
-/

namespace StegaScan

/-- ASCII lowercase of one character; the repository's signature
descriptions are pure ASCII, so this models Rust `to_lowercase`. -/
def lowerChar (c : Char) : Char :=
  if 'A' ≤ c ∧ c ≤ 'Z' then Char.ofNat (c.toNat + 32) else c

/-- ASCII uppercase of one character, modelling Rust `to_uppercase`. -/
def upperChar (c : Char) : Char :=
  if 'a' ≤ c ∧ c ≤ 'z' then Char.ofNat (c.toNat - 32) else c

/-- ASCII lowercase of a string. -/
def lowerStr (s : String) : String := ⟨s.data.map lowerChar⟩

/-- ASCII uppercase of a string. -/
def upperStr (s : String) : String := ⟨s.data.map upperChar⟩

/-- Substring test on character lists, modelling Rust `str::contains`. -/
def containsSub : List Char → List Char → Bool
  | [], pat => pat.isEmpty
  | h :: t, pat => pat.isPrefixOf (h :: t) || containsSub t pat

/-- Substring test on strings, modelling Rust `str::contains`. -/
def strContains (s pat : String) : Bool := containsSub s.data pat.data

/-- One signature hit, translated from struct `EmbeddedFile`
(`magic_bytes_analyzer.rs:43-49`). -/
structure EmbeddedFile where
  offset : ℕ
  description : String
  file_type : String
  confidence : String
deriving DecidableEq, Repr

/-- Per-category tally, translated from struct `FormatSummary`
(`magic_bytes_analyzer.rs:51-60`). -/
structure FormatSummary where
  audio_files : ℕ := 0
  video_files : ℕ := 0
  image_files : ℕ := 0
  text_files : ℕ := 0
  archive_files : ℕ := 0
  executable_files : ℕ := 0
  other_files : ℕ := 0
deriving DecidableEq, Repr

/-- Translated from `determine_file_category` (`magic_bytes_analyzer.rs:253-306`). -/
def determine_file_category (description : String) : String :=
  let desc_lower := lowerStr description
  if strContains desc_lower "jpeg" || strContains desc_lower "png" ||
      strContains desc_lower "gif" || strContains desc_lower "bmp" ||
      strContains desc_lower "tiff" || strContains desc_lower "webp" ||
      strContains desc_lower "image" then
    "Image"
  else if strContains desc_lower "mp3" || strContains desc_lower "wav" ||
      strContains desc_lower "flac" || strContains desc_lower "ogg" ||
      strContains desc_lower "aac" || strContains desc_lower "audio" then
    "Audio"
  else if strContains desc_lower "mp4" || strContains desc_lower "avi" ||
      strContains desc_lower "mkv" || strContains desc_lower "webm" ||
      strContains desc_lower "mov" || strContains desc_lower "video" then
    "Video"
  else if strContains desc_lower "pdf" || strContains desc_lower "doc" ||
      strContains desc_lower "txt" || strContains desc_lower "rtf" ||
      strContains desc_lower "xml" || strContains desc_lower "html" then
    "Text/Document"
  else if strContains desc_lower "zip" || strContains desc_lower "rar" ||
      strContains desc_lower "tar" || strContains desc_lower "7z" ||
      strContains desc_lower "gzip" || strContains desc_lower "archive" then
    "Archive"
  else if strContains desc_lower "exe" || strContains desc_lower "elf" ||
      strContains desc_lower "mach-o" || strContains desc_lower "executable" then
    "Executable"
  else
    "Other"

/-- Translated from `categorize_file_type` (`magic_bytes_analyzer.rs:308-318`). -/
def categorize_file_type (description : String) (summary : FormatSummary) : FormatSummary :=
  match determine_file_category description with
  | "Image" => { summary with image_files := summary.image_files + 1 }
  | "Audio" => { summary with audio_files := summary.audio_files + 1 }
  | "Video" => { summary with video_files := summary.video_files + 1 }
  | "Text/Document" => { summary with text_files := summary.text_files + 1 }
  | "Archive" => { summary with archive_files := summary.archive_files + 1 }
  | "Executable" => { summary with executable_files := summary.executable_files + 1 }
  | _ => { summary with other_files := summary.other_files + 1 }

/-- The saturating decrement applied to the primary format's category,
translated from `magic_bytes_analyzer.rs:158-184` (Rust `saturating_sub(1)`
is `Nat` subtraction). -/
def decrement_primary (description : String) (summary : FormatSummary) : FormatSummary :=
  match determine_file_category description with
  | "Image" => { summary with image_files := summary.image_files - 1 }
  | "Audio" => { summary with audio_files := summary.audio_files - 1 }
  | "Video" => { summary with video_files := summary.video_files - 1 }
  | "Text/Document" => { summary with text_files := summary.text_files - 1 }
  | "Archive" => { summary with archive_files := summary.archive_files - 1 }
  | "Executable" => { summary with executable_files := summary.executable_files - 1 }
  | _ => { summary with other_files := summary.other_files - 1 }

/-- The tally part of `MagicBytesAnalyzerWithPath::analyze`
(`magic_bytes_analyzer.rs:124-184`): categorize the primary (offset-0)
match once while naming the primary format, categorize every match in the
result loop, then apply the saturating decrement for the primary match. -/
def computeFormatSummary (all_results : List EmbeddedFile) : FormatSummary :=
  let afterPrimary :=
    match all_results.head? with
    | some first =>
        if first.offset = 0 then categorize_file_type first.description {} else {}
    | none => {}
  let afterLoop := all_results.foldl (fun s r => categorize_file_type r.description s) afterPrimary
  match all_results.head? with
  | some first =>
      if first.offset = 0 then decrement_primary first.description afterLoop else afterLoop
  | none => afterLoop

/-- Projection of a `FormatSummary` field by category name. -/
def FormatSummary.get (s : FormatSummary) (c : String) : ℕ :=
  if c = "Image" then s.image_files
  else if c = "Audio" then s.audio_files
  else if c = "Video" then s.video_files
  else if c = "Text/Document" then s.text_files
  else if c = "Archive" then s.archive_files
  else if c = "Executable" then s.executable_files
  else s.other_files

/-- Number of matches in a result list whose description falls in category `c`. -/
def countCategory (c : String) (l : List EmbeddedFile) : ℕ :=
  (l.filter (fun r => determine_file_category r.description = c)).length

/-- The seven category names `determine_file_category` can return. -/
def categoryNames : List String :=
  ["Image", "Audio", "Video", "Text/Document", "Archive", "Executable", "Other"]


/-- Translated from `is_complete_file_signature` (`magic_bytes_analyzer.rs:320-333`). -/
def is_complete_file_signature (description : String) : Bool :=
  let desc_lower := lowerStr description
  strContains desc_lower "header" || strContains desc_lower "jpeg image" ||
    strContains desc_lower "png image" || strContains desc_lower "gif image" ||
    strContains desc_lower "pdf document" || strContains desc_lower "zip archive" ||
    strContains desc_lower "rar archive" || strContains desc_lower "audio" ||
    strContains desc_lower "video"

/-- Translated from `is_likely_real_file` (`magic_bytes_analyzer.rs:443-470`);
`offset.saturating_sub(4)` is `Nat` subtraction.  The `sigLen` parameter is
unused, as in the source. -/
def is_likely_real_file (data : List ℕ) (offset : ℕ) (sigLen : ℕ) : Bool :=
  if offset = 0 then true
  else
    let before := (data.drop (offset - 4)).take 4
    if 4 ≤ offset &&
        (before.all (fun b => b = 0x00) || before.all (fun b => b = 0xFF)) then true
    else if offset % 512 = 0 || offset % 1024 = 0 then true
    else false

/-- The fixed manual signature table (`magic_bytes_analyzer.rs:342-382`):
byte pattern, description, `should_scan` flag. -/
def signatureTable : List (List ℕ × String × Bool) :=
  [([0x52, 0x49, 0x46, 0x46], "RIFF container", true),
   ([0x49, 0x44, 0x33], "ID3 tag", true),
   ([0x66, 0x4C, 0x61, 0x43], "FLAC audio", true),
   ([0x4F, 0x67, 0x67, 0x53], "OGG audio", true),
   ([0xFF, 0xD8, 0xFF, 0xE0], "JPEG image (JFIF)", true),
   ([0xFF, 0xD8, 0xFF, 0xE1], "JPEG image (Exif)", true),
   ([0x89, 0x50, 0x4E, 0x47, 0x0D, 0x0A, 0x1A, 0x0A], "PNG image", true),
   ([0x47, 0x49, 0x46, 0x38, 0x37, 0x61], "GIF87a image", true),
   ([0x47, 0x49, 0x46, 0x38, 0x39, 0x61], "GIF89a image", true),
   ([0x25, 0x50, 0x44, 0x46, 0x2D], "PDF document", true),
   ([0x50, 0x4B, 0x03, 0x04], "ZIP archive", true),
   ([0x52, 0x61, 0x72, 0x21, 0x1A, 0x07], "RAR archive", true),
   ([0x37, 0x7A, 0xBC, 0xAF, 0x27, 0x1C], "7-Zip archive", true),
   ([0x1A, 0x45, 0xDF, 0xA3], "Webm/mkv", true),
   ([0x66, 0x74, 0x79, 0x70], "Mp4", true)]

/-- One signature's scan loop inside `manual_signature_scan`
(`magic_bytes_analyzer.rs:390-436`), with an explicit fuel argument for the
`while` loop; the loop advances `pos` by at least 1 each step and stops once
`pos > data.len() - sig.len()` (saturating), so fuel `data.length + 1`
reproduces it exactly. -/
def scanFrom (data sig : List ℕ) (description : String) : ℕ → ℕ → List EmbeddedFile
  | 0, _ => []
  | fuel + 1, pos =>
    if pos ≤ data.length - sig.length then
      if sig.isPrefixOf (data.drop pos) then
        (if strContains description "RIFF" then
          (if pos + 12 ≤ data.length then
            (let riff_type := (data.drop (pos + 8)).take 4
             if riff_type = [0x57, 0x41, 0x56, 0x45] then
               [⟨pos, "WAV audio (RIFF/WAVE)", "Audio", "high"⟩]
             else if riff_type = [0x41, 0x56, 0x49, 0x20] then
               [⟨pos, "AVI video (RIFF)", "Video", "high"⟩]
             else if riff_type = [0x57, 0x45, 0x42, 0x50] then
               [⟨pos, "WebP image (RIFF)", "Image", "high"⟩]
             else [])
           else [])
         else
          (if pos == 0 || is_likely_real_file data pos sig.length then
            [⟨pos, description, determine_file_category description, "medium"⟩]
           else [])) ++
        scanFrom data sig description fuel (pos + sig.length)
      else scanFrom data sig description fuel (pos + 1)
    else []

/-- Translated from `manual_signature_scan` (`magic_bytes_analyzer.rs:337-440`). -/
def manual_signature_scan (data : List ℕ) : List EmbeddedFile :=
  signatureTable.foldl
    (fun results s =>
      if s.2.2 then results ++ scanFrom data s.1 s.2.1 (data.length + 1) 0 else results)
    []

/-- The three descriptions produced by the RIFF sub-branch of the manual scan. -/
def riffDescriptions : List String :=
  ["WAV audio (RIFF/WAVE)", "AVI video (RIFF)", "WebP image (RIFF)"]


/-- Uppercase hexadecimal digit for a value below 16. -/
def hexDigit (n : ℕ) : Char :=
  if n < 10 then Char.ofNat (48 + n) else Char.ofNat (55 + n)

/-- Accumulator loop for `hexStr`; the fuel argument bounds the number of
base-16 digits and `n + 1` always suffices. -/
def hexCharsAux : ℕ → ℕ → List Char → List Char
  | 0, _, acc => acc
  | fuel + 1, n, acc =>
      if n = 0 then acc else hexCharsAux fuel (n / 16) (hexDigit (n % 16) :: acc)

/-- Uppercase hexadecimal rendering of a number, modelling `format!("0x{:X}", n)`
without the prefix. -/
def hexStr (n : ℕ) : String :=
  if n = 0 then "0" else ⟨hexCharsAux (n + 1) n []⟩

/-- Translated from `detect_format_at_offset` (`magic_bytes_analyzer.rs:472-528`). -/
def detect_format_at_offset (data : List ℕ) (offset : ℕ) : String :=
  if data.length ≤ offset ∨ data.length < offset + 4 then "UNKNOWN"
  else
    let bytes := data.drop offset
    if [0x52, 0x49, 0x46, 0x46].isPrefixOf bytes then
      if offset + 8 < data.length then
        let riff_type := (data.drop (offset + 8)).take 4
        if riff_type = [0x57, 0x41, 0x56, 0x45] then "WAV audio"
        else if riff_type = [0x41, 0x56, 0x49, 0x20] then "AVI video"
        else if riff_type = [0x57, 0x45, 0x42, 0x50] then "WEBP image"
        else "RIFF container"
      else "RIFF container"
    else if [0xFF, 0xD8, 0xFF].isPrefixOf bytes then "JPEG image"
    else if [0x89, 0x50, 0x4E, 0x47].isPrefixOf bytes then "PNG image"
    else if [0x47, 0x49, 0x46, 0x38].isPrefixOf bytes then "GIF image"
    else if [0x25, 0x50, 0x44, 0x46].isPrefixOf bytes then "PDF document"
    else if [0x50, 0x4B, 0x03, 0x04].isPrefixOf bytes then "ZIP archive"
    else if [0x49, 0x44, 0x33].isPrefixOf bytes then "MP3 audio (with ID3)"
    else if [0xFF, 0xFB].isPrefixOf bytes ∨ [0xFF, 0xF3].isPrefixOf bytes ∨
        [0xFF, 0xF2].isPrefixOf bytes then "MP3 audio"
    else if [0x66, 0x4C, 0x61, 0x43].isPrefixOf bytes then "FLAC audio"
    else "UNKNOWN"

/-- One deep-scan (binwalk collaborator) result: offset, signature name and
confidence byte. -/
structure BinwalkSig where
  offset : ℕ
  name : String
  confidence : ℕ
deriving DecidableEq, Repr

/-- The confidence-byte mapping of `magic_bytes_analyzer.rs:100-104`. -/
def binwalkConfidence (c : ℕ) : String :=
  if c < 100 then "low" else if c < 200 then "medium" else "high"

/-- The binwalk-result mapping of `magic_bytes_analyzer.rs:95-107`. -/
def binwalkToEmbedded (sig : BinwalkSig) : EmbeddedFile :=
  { offset := sig.offset,
    description := sig.name,
    file_type := determine_file_category sig.name,
    confidence := binwalkConfidence sig.confidence }

/-- The manual-result merge of `magic_bytes_analyzer.rs:112-118`: a manual
match is skipped when any already-collected result sits at the same offset. -/
def mergeManual (binwalk manual : List EmbeddedFile) : List EmbeddedFile :=
  manual.foldl
    (fun all_results manual_result =>
      if all_results.any (fun r => r.offset == manual_result.offset) then all_results
      else all_results ++ [manual_result])
    binwalk

/-- The offset sort of `magic_bytes_analyzer.rs:121` (`sort_by_key` is a
stable ascending sort). -/
def sortResults (l : List EmbeddedFile) : List EmbeddedFile :=
  l.mergeSort (fun a b => a.offset ≤ b.offset)

/-- Full signature-scan output, translated from struct `MagicBytesAnalysis`
(`magic_bytes_analyzer.rs:31-41`). -/
structure MagicBytesAnalysis where
  primary_format : String
  expected_format : Option String
  total_signatures_found : ℕ
  embedded_files : List EmbeddedFile
  has_multiple_formats : Bool
  has_suspicious_data : Bool
  suspicious_findings : List String
  format_summary : FormatSummary
deriving DecidableEq, Repr

/-- The complete-header findings collected in the result loop
(`magic_bytes_analyzer.rs:141-156`). -/
def completeHeaderFindings (all_results : List EmbeddedFile) : List String :=
  (all_results.filter
      (fun r => 0 < r.offset && is_complete_file_signature r.description)).map
    (fun r =>
      "Complete file signature found at offset 0x" ++ hexStr r.offset ++ ": " ++ r.description)

/-- The extension-mismatch finding (`magic_bytes_analyzer.rs:186-195`). -/
def extensionMismatch (expected_format : Option String) (primary_format : String) :
    List String :=
  match expected_format with
  | some expected =>
      if !strContains (upperStr primary_format) expected && !(primary_format == "UNKNOWN") then
        ["Format mismatch: extension says " ++ expected ++ ", detected format is " ++
          primary_format]
      else []
  | none => []

/-- The polyglot condition (`magic_bytes_analyzer.rs:207-210`). -/
def isPolyglot (s : FormatSummary) : Bool :=
  0 < s.audio_files && 0 < s.image_files && (0 < s.video_files || 0 < s.text_files)

/-- The post-merge body of `MagicBytesAnalyzerWithPath::analyze`
(`magic_bytes_analyzer.rs:124-236`), applied to the sorted merged match
list. -/
def magicAnalyzeCore (file_data : List ℕ) (expected_format : Option String)
    (all_results : List EmbeddedFile) : MagicBytesAnalysis :=
  let primary_format :=
    match all_results.head? with
    | some first =>
        if first.offset = 0 then first.description else detect_format_at_offset file_data 0
    | none => detect_format_at_offset file_data 0
  let format_summary := computeFormatSummary all_results
  let has_multiple_formats : Bool := decide (1 < all_results.length)
  let has_suspicious_data : Bool :=
    all_results.any (fun r => 0 < r.offset && is_complete_file_signature r.description)
  let suspicious_findings :=
    completeHeaderFindings all_results ++
    extensionMismatch expected_format primary_format ++
    (if has_multiple_formats then
      ["Multiple file signatures detected (" ++ toString all_results.length ++ " total)"]
     else []) ++
    (if isPolyglot format_summary then
      ["POLYGLOT FILE DETECTED: Contains multiple media types (possible steganography)"]
     else [])
  { primary_format := primary_format,
    expected_format := expected_format,
    total_signatures_found := all_results.length,
    embedded_files := all_results,
    has_multiple_formats := has_multiple_formats,
    has_suspicious_data := has_suspicious_data,
    suspicious_findings := suspicious_findings,
    format_summary := format_summary }

/-- Translated from `MagicBytesAnalyzerWithPath::analyze`
(`magic_bytes_analyzer.rs:71-237`), parameterised over the file bytes and
the external binwalk collaborator's results (the file read and
`Binwalk::scan` happen outside the engine). -/
def magicAnalyze (file_data : List ℕ) (expected_format : Option String)
    (binwalk_results : List BinwalkSig) : Except String MagicBytesAnalysis :=
  if file_data.isEmpty then .error "Empty file"
  else
    .ok (magicAnalyzeCore file_data expected_format
      (sortResults
        (mergeManual (binwalk_results.map binwalkToEmbedded)
          (manual_signature_scan file_data))))

/-- Translated from struct `FormatSummary` in `json_report.rs:35-44`. -/
structure ReportFormatSummary where
  images : ℕ
  audio : ℕ
  video : ℕ
  text_documents : ℕ
  archives : ℕ
  executables : ℕ
  other : ℕ
deriving DecidableEq, Repr

/-- Translated from struct `EmbeddedFileInfo` (`json_report.rs:46-53`). -/
structure EmbeddedFileInfo where
  offset : ℕ
  offset_hex : String
  description : String
  file_type : String
  confidence : String
deriving DecidableEq, Repr

/-- Translated from struct `MagicBytesReport` (`json_report.rs:23-33`). -/
structure MagicBytesReport where
  primary_format : String
  expected_format : Option String
  total_signatures_found : ℕ
  has_multiple_formats : Bool
  has_suspicious_data : Bool
  format_summary : ReportFormatSummary
  embedded_files : List EmbeddedFileInfo
  suspicious_findings : List String
deriving DecidableEq, Repr

/-- The analysis-to-report mapping performed in `main.rs:181-208`. -/
def magicReportOf (a : MagicBytesAnalysis) : MagicBytesReport :=
  { primary_format := a.primary_format,
    expected_format := a.expected_format,
    total_signatures_found := a.total_signatures_found,
    has_multiple_formats := a.has_multiple_formats,
    has_suspicious_data := a.has_suspicious_data,
    format_summary :=
      { images := a.format_summary.image_files,
        audio := a.format_summary.audio_files,
        video := a.format_summary.video_files,
        text_documents := a.format_summary.text_files,
        archives := a.format_summary.archive_files,
        executables := a.format_summary.executable_files,
        other := a.format_summary.other_files },
    embedded_files := a.embedded_files.map
      (fun f => { offset := f.offset,
                  offset_hex := "0x" ++ hexStr f.offset,
                  description := f.description,
                  file_type := f.file_type,
                  confidence := f.confidence }),
    suspicious_findings := a.suspicious_findings }

/-- Translated from struct `MetadataField` (`json_report.rs:82-86`). -/
structure MetadataField where
  key : String
  value : String
deriving DecidableEq, Repr

/-- Translated from struct `ExifReport` (`json_report.rs:72-80`). -/
structure ExifReport where
  fields_found : ℕ
  has_thumbnail : Bool
  thumbnail_size_bytes : Option ℕ
  comment_fields : List String
  suspicious_fields : List String
  metadata : List MetadataField
deriving DecidableEq, Repr

/-- Translated from struct `LsbChannelAnalysis` (`json_report.rs:95-100`). -/
structure LsbChannelAnalysis where
  channel_name : String
  chi_square_score : ℝ
  entropy_score : ℝ

/-- Translated from struct `LsbReport` (`json_report.rs:88-93`). -/
structure LsbReport where
  is_suspicious : Bool
  channels : List LsbChannelAnalysis
  output_files : List String

/-- Translated from struct `FilterAnalysisReport` (`json_report.rs:102-106`). -/
structure FilterAnalysisReport where
  filters_generated : ℕ
  output_files : List String
deriving DecidableEq, Repr

/-- Translated from struct `ImageAnalysis` (`json_report.rs:65-70`). -/
structure ImageAnalysis where
  exif_metadata : Option ExifReport
  lsb_analysis : Option LsbReport
  filter_analysis : FilterAnalysisReport

/-- Translated from struct `Id3Report` (`json_report.rs:115-125`). -/
structure Id3Report where
  title : Option String
  artist : Option String
  album : Option String
  year : Option ℤ
  comments_count : ℕ
  pictures_count : ℕ
  private_frames_count : ℕ
  suspicious_frames : List String
deriving DecidableEq, Repr

/-- Translated from struct `SpectrogramReport` (`json_report.rs:127-133`). -/
structure SpectrogramReport where
  high_frequency_energy : ℝ
  hidden_message_detected : Bool
  suspicious_patterns : List String
  output_file : String

/-- Translated from struct `AudioAnalysis` (`json_report.rs:108-113`). -/
structure AudioAnalysis where
  sample_count : ℕ
  id3_analysis : Option Id3Report
  spectrogram_analysis : Option SpectrogramReport

/-- Translated from struct `VideoAnalysis` (`json_report.rs:135-139`): only
the two counters exist; no flagged-frame data is carried. -/
structure VideoAnalysis where
  frames_processed : ℕ
  errors_encountered : ℕ
deriving DecidableEq, Repr

/-- Translated from struct `TextAnalysis` (`json_report.rs:141-148`). -/
structure TextAnalysis where
  file_type : String
  line_count : ℕ
  word_count : ℕ
  character_count : ℕ
  size_bytes : ℕ
deriving DecidableEq, Repr

/-- Translated from enum `FormatSpecificAnalysis` (`json_report.rs:55-63`). -/
inductive FormatSpecificAnalysis where
  | Image (a : ImageAnalysis)
  | Audio (a : AudioAnalysis)
  | Video (a : VideoAnalysis)
  | Text (a : TextAnalysis)
  | Unknown

/-- Translated from struct `AnalysisSummary` (`json_report.rs:150-156`). -/
structure AnalysisSummary where
  steganography_detected : Bool
  confidence_level : String
  threat_indicators : List String
  recommendations : List String
deriving DecidableEq, Repr

/-- The report construction in the video branch of `main`
(`main.rs:447-450`): only the frame and decode-error counters reach
`VideoAnalysis`; the locally accumulated `suspicious_frame_indices` list
(and the per-frame analysis flags behind it) are printed and dropped. -/
def videoAnalysisOf (frame_count error_count : ℕ)
    (suspicious_frame_indices : List ℕ) : VideoAnalysis :=
  { frames_processed := frame_count, errors_encountered := error_count }

/-- Translated from `SteganalysisReport::finalize_summary`
(`json_report.rs:192-270`), as a pure function of the optional magic-bytes
report and the format-specific result. -/
def finalizeSummary (magic_bytes_analysis : Option MagicBytesReport)
    (format_specific_analysis : FormatSpecificAnalysis) : AnalysisSummary :=
  let magicIndicators :=
    match magic_bytes_analysis with
    | some magic =>
        (if magic.has_suspicious_data then ["Suspicious data found in file structure"]
         else []) ++
        (if magic.has_multiple_formats then ["Multiple file formats detected"] else []) ++
        (if !magic.suspicious_findings.isEmpty then magic.suspicious_findings else [])
    | none => []
  let magicDetected :=
    match magic_bytes_analysis with
    | some magic => magic.has_suspicious_data || !magic.suspicious_findings.isEmpty
    | none => false
  let formatIndicators :=
    match format_specific_analysis with
    | .Image img =>
        (match img.lsb_analysis with
         | some lsb =>
             if lsb.is_suspicious then ["LSB analysis indicates possible hidden data"]
             else []
         | none => []) ++
        (match img.exif_metadata with
         | some exif =>
             if !exif.suspicious_fields.isEmpty then ["Suspicious EXIF metadata found"]
             else []
         | none => [])
    | .Audio audio =>
        (match audio.spectrogram_analysis with
         | some spec =>
             if spec.hidden_message_detected then
               ["Spectrogram analysis detected hidden patterns"]
             else []
         | none => []) ++
        (match audio.id3_analysis with
         | some id3 =>
             if !id3.suspicious_frames.isEmpty then ["Suspicious ID3 metadata found"]
             else []
         | none => [])
    | _ => []
  let formatDetected :=
    match format_specific_analysis with
    | .Image img =>
        (match img.lsb_analysis with
         | some lsb => lsb.is_suspicious
         | none => false)
    | .Audio audio =>
        (match audio.spectrogram_analysis with
         | some spec => spec.hidden_message_detected
         | none => false)
    | _ => false
  let indicators := magicIndicators ++ formatIndicators
  let steg_detected := magicDetected || formatDetected
  let confidence :=
    if 3 ≤ indicators.length then "high"
    else if 1 ≤ indicators.length then "medium"
    else "low"
  let recommendations :=
    if steg_detected then
      ["Further investigation recommended",
       "Consider using specialized steganography tools",
       "Verify file source and integrity"]
    else
      ["No obvious steganography detected", "File appears to be clean"]
  { steganography_detected := steg_detected,
    confidence_level := confidence,
    threat_indicators := indicators,
    recommendations := recommendations }

/-- A decoded RGBA pixel grid, the external image-decoding collaborator's
output: width, height and a per-pixel 4-channel `u8` accessor. -/
structure RgbaImage where
  width : ℕ
  height : ℕ
  pixel : ℕ → ℕ → Fin 4 → ℕ

/-- Row-major traversal of all pixels, modelling `image.pixels()`. -/
def pixelsRowMajor (img : RgbaImage) : List (Fin 4 → ℕ) :=
  (List.range img.height).flatMap (fun y => (List.range img.width).map (fun x => img.pixel x y))

/-- Minimal model of the IEEE `f64` values reachable by the unguarded
chi-square accumulation: finite values, positive infinity, NaN. -/
inductive FpVal where
  | fin (x : ℝ)
  | inf
  | nan

/-- IEEE addition restricted to `FpVal`: NaN propagates and (positive)
infinity absorbs finite values. -/
def FpVal.add : FpVal → FpVal → FpVal
  | .nan, _ => .nan
  | _, .nan => .nan
  | .inf, _ => .inf
  | _, .inf => .inf
  | .fin a, .fin b => .fin (a + b)

/-- IEEE division for a nonnegative numerator: `0/0` is NaN, `x/0` with
`x ≠ 0` is `+∞`, otherwise the exact quotient. -/
noncomputable def fpDiv (num den : ℝ) : FpVal :=
  if den = 0 then (if num = 0 then .nan else .inf) else .fin (num / den)

/-- IEEE comparison `x > c` on a possibly-NaN value: NaN compares false. -/
def FpVal.gtReal : FpVal → ℝ → Prop
  | .fin a, c => c < a
  | .inf, _ => True
  | .nan, _ => False

/-- Consecutive disjoint bit pairs `(b0 << 1) | b1` of an LSB sequence,
modelling the `chunks(2)` loops of both `calculate_chi_square`
implementations; a trailing unpaired bit is dropped. -/
def pairValues : List ℕ → List ℕ
  | b0 :: b1 :: rest => ((b0 <<< 1) ||| b1) :: pairValues rest
  | _ => []

namespace LsbAnalyzer

/-- Translated from `extract_lsb_plane` (`lsb_analyzer.rs:74-76`);
`pixel[channel] & 1` is `% 2`. -/
def extract_lsb_plane (image : RgbaImage) (channel : Fin 4) : List ℕ :=
  (pixelsRowMajor image).map (fun p => p channel % 2)

/-- Translated from the image analyzer's `calculate_chi_square`
(`lsb_analyzer.rs:98-122`).  The source allocates 256 counters but reads
only the first 4, and the division by `expected` is NOT guarded, so an
input with zero pairs produces NaN.  The `channel` parameter is unused, as
in the source. -/
noncomputable def calculate_chi_square (lsb_data : List ℕ) (channel : ℕ) : FpVal :=
  let pair_counts := fun v => ((pairValues lsb_data).filter (fun p => p = v)).length
  let total_pairs := lsb_data.length / 2
  let expected : ℝ := (total_pairs : ℝ) / 4
  [pair_counts 0, pair_counts 1, pair_counts 2, pair_counts 3].foldl
    (fun chi_square (count : ℕ) =>
      chi_square.add
        (fpDiv (((count : ℝ) - expected) * ((count : ℝ) - expected)) expected))
    (.fin 0)

/-- Translated from `calculate_entropy` (`lsb_analyzer.rs:124-144`); the
`counts` array is indexed by the bit value, so the function's domain is
bit sequences.  The `channel` parameter is unused, as in the source. -/
noncomputable def calculate_entropy (lsb_data : List ℕ) (channel : ℕ) : ℝ :=
  let counts := fun v => (lsb_data.filter (fun b => b = v)).length
  let total : ℝ := (lsb_data.length : ℝ)
  [counts 0, counts 1].foldl
    (fun entropy (count : ℕ) =>
      if 0 < count then
        entropy - ((count : ℝ) / total) * Real.logb 2 ((count : ℝ) / total)
      else entropy)
    0

/-- Ceiling square root, modelling `(len as f64).sqrt().ceil() as u32`. -/
def ceilSqrt (n : ℕ) : ℕ :=
  if Nat.sqrt n * Nat.sqrt n = n then Nat.sqrt n else Nat.sqrt n + 1

/-- The per-channel RGBA pattern written by `visualize_lsb_plane`
(`lsb_analyzer.rs:86-91`). -/
def channelPixel (channel : Fin 4) (val : ℕ) : Fin 4 → ℕ := fun c =>
  if channel = 0 then (if c = 0 then val else if c = 3 then 255 else 0)
  else if channel = 1 then (if c = 1 then val else if c = 3 then 255 else 0)
  else if channel = 2 then (if c = 2 then val else if c = 3 then 255 else 0)
  else (if c = 3 then 255 else val)

/-- Translated from `visualize_lsb_plane` (`lsb_analyzer.rs:78-96`).  The
height computation `(len as u32 + width - 1) / width` panics on an empty
bit plane (`width = 0`): the subtraction underflows in debug builds and
the division by zero aborts in release builds; the panic is modelled as
`none`. -/
def visualize_lsb_plane (lsb_data : List ℕ) (channel : Fin 4) : Option RgbaImage :=
  let width := ceilSqrt lsb_data.length
  if width = 0 then none
  else
    some
      { width := width,
        height := (lsb_data.length + width - 1) / width,
        pixel := fun x y =>
          let idx := y * width + x
          match lsb_data.get? idx with
          | some b => channelPixel channel (if b = 1 then 255 else 0)
          | none => fun c => if c = 3 then 255 else 0 }

/-- Translated from enum `LsbAnalyzerError` (`lsb_analyzer.rs:7-10`). -/
inductive LsbAnalyzerError where
  | ImageProcessing (msg : String)

/-- Per-image LSB analysis output, translated from struct `LsbAnalysis`
(`lsb_analyzer.rs:22-28`). -/
structure LsbAnalysis where
  lsb_planes : List RgbaImage
  chi_square_scores : List FpVal
  entropy_scores : List ℝ
  suspicious : Prop

/-- Translated from `LsbAnalyzer::analyze` (`lsb_analyzer.rs:35-71`): the
input is the decoded RGBA grid (`to_rgba8` output), the three color
channels are processed in order, and the result is always `Ok` — except
that `visualize_lsb_plane` panics on a zero-pixel image, modelled by the
outer `Option` being `none`. -/
noncomputable def analyze (input : RgbaImage) :
    Option (Except LsbAnalyzerError LsbAnalysis) :=
  let rgba := input
  let channels : List (Fin 4) := [0, 1, 2]
  let chi_square_scores :=
    channels.map (fun c => calculate_chi_square (extract_lsb_plane rgba c) c.val)
  let entropy_scores :=
    channels.map (fun c => calculate_entropy (extract_lsb_plane rgba c) c.val)
  match channels.mapM (fun c => visualize_lsb_plane (extract_lsb_plane rgba c) c) with
  | none => none
  | some lsb_planes =>
      some (.ok
        { lsb_planes := lsb_planes,
          chi_square_scores := chi_square_scores,
          entropy_scores := entropy_scores,
          suspicious :=
            (∃ score ∈ chi_square_scores, score.gtReal 100) ∨
              ∃ ent ∈ entropy_scores, (0.9 : ℝ) < ent })

end LsbAnalyzer

namespace VideoFrameAnalyzer

/-- Translated from the video analyzer's `calculate_chi_square`
(`video_frame_analyzer.rs:80-105`): the counter array has exactly 4
entries behind a bounds guard, and the division is guarded by
`expected > 0.0`, so zero pairs yield `0`. -/
noncomputable def calculate_chi_square (lsb_data : List ℕ) : ℝ :=
  let pair_counts := fun v => ((pairValues lsb_data).filter (fun p => p = v)).length
  let total_pairs := lsb_data.length / 2
  let expected : ℝ := (total_pairs : ℝ) / 4
  [pair_counts 0, pair_counts 1, pair_counts 2, pair_counts 3].foldl
    (fun chi_square (count : ℕ) =>
      if 0 < expected then
        chi_square + (((count : ℝ) - expected) * ((count : ℝ) - expected)) / expected
      else chi_square)
    0

end VideoFrameAnalyzer

namespace SpectrogramAnalyzer

/-- Translated from `generate_spectrogram` (`spectrogram_analyzer.rs:75-124`),
parameterised by the external FFT collaborator (`rustfft`), which maps a
complex buffer to a complex buffer (pairs of re/im parts).  The `usize`
subtraction in `num_frames` wraps in release builds when
`samples.len() < window_size`, but the loop's `end > samples.len()` break
then yields no frames either way, which truncated `Nat` subtraction
reproduces. -/
noncomputable def generate_spectrogram (fft : List (ℝ × ℝ) → List (ℝ × ℝ))
    (samples : List ℝ) (window_size hop_size : ℕ) : List (List ℝ) :=
  let num_frames := (samples.length - window_size) / hop_size + 1
  let window : List ℝ :=
    (List.range window_size).map
      (fun i : ℕ => 0.5 * (1 - Real.cos ((2 * Real.pi * (i : ℝ)) / ((window_size : ℝ) - 1))))
  ((List.range num_frames).takeWhile
      (fun frame_idx => frame_idx * hop_size + window_size ≤ samples.length)).map
    (fun frame_idx =>
      let start := frame_idx * hop_size
      let buffer :=
        List.zipWith (fun s w => (s * w, (0 : ℝ))) ((samples.drop start).take window_size)
          window
      let out := fft buffer
      (out.take (window_size / 2)).map (fun c => Real.sqrt (c.1 * c.1 + c.2 * c.2)))

end SpectrogramAnalyzer

/-! ### Concrete inputs used in counterexamples and witnesses -/

/-- A 10-byte buffer holding an ID3 tag marker at offset 0 and, after four
bytes of null padding, a second ID3 tag marker at offset 7. -/
def id3Buffer : List ℕ :=
  [0x49, 0x44, 0x33, 0x00, 0x00, 0x00, 0x00, 0x49, 0x44, 0x33]

/-- The manual-scan hit at offset 0 of `id3Buffer`. -/
def id3Match0 : EmbeddedFile :=
  { offset := 0, description := "ID3 tag", file_type := "Other", confidence := "medium" }

/-- The manual-scan hit at offset 7 of `id3Buffer`. -/
def id3Match7 : EmbeddedFile :=
  { offset := 7, description := "ID3 tag", file_type := "Other", confidence := "medium" }

/-- The signature-scan analysis of `id3Buffer` (no extension hint, no
binwalk results). -/
def id3Analysis : MagicBytesAnalysis :=
  magicAnalyzeCore id3Buffer none [id3Match0, id3Match7]

/-- A 13-byte buffer with a RIFF/WAVE header at offset 1: the offset is
unaligned and the single byte before it is not a 4-byte padding run. -/
def riffBuffer : List ℕ :=
  [0xAA, 0x52, 0x49, 0x46, 0x46, 0x01, 0x01, 0x01, 0x01, 0x57, 0x41, 0x56, 0x45]

/-- The RIFF/WAVE manual-scan hit at offset 1 of `riffBuffer`. -/
def riffMatch1 : EmbeddedFile :=
  { offset := 1, description := "WAV audio (RIFF/WAVE)", file_type := "Audio",
    confidence := "high" }

/-- An offset-0 PNG match, category Image. -/
def pngMatch0 : EmbeddedFile :=
  { offset := 0, description := "PNG image", file_type := "Image", confidence := "medium" }

/-- A decoded image with zero dimensions. -/
def zeroImage : RgbaImage := { width := 0, height := 0, pixel := fun _ _ _ => 0 }

/-- The alternating bit sequence `0, 1, 0, 1, …` of length `n`. -/
def alternatingBits (n : ℕ) : List ℕ := (List.range n).map (fun i => i % 2)

/-- A quiet magic-bytes report: no suspicious data, a single format, no
findings. -/
def magicQuiet (m : Option MagicBytesReport) : Prop :=
  match m with
  | none => True
  | some magic =>
      magic.has_suspicious_data = false ∧ magic.has_multiple_formats = false ∧
        magic.suspicious_findings = []

/-- A magic-bytes report triggering three indicators (suspicious data,
multiple formats, one finding). -/
def magicReportThree : MagicBytesReport :=
  { primary_format := "PNG image", expected_format := none,
    total_signatures_found := 2, has_multiple_formats := true,
    has_suspicious_data := true,
    format_summary := ⟨1, 0, 0, 0, 0, 0, 0⟩, embedded_files := [],
    suspicious_findings := ["Complete file signature found at offset 0x200: PNG image"] }

/-- A magic-bytes report triggering exactly one indicator (multiple
formats only). -/
def magicReportOne : MagicBytesReport :=
  { primary_format := "PNG image", expected_format := none,
    total_signatures_found := 2, has_multiple_formats := true,
    has_suspicious_data := false,
    format_summary := ⟨1, 0, 0, 0, 0, 0, 0⟩, embedded_files := [],
    suspicious_findings := [] }

/-- An EXIF report whose only content is one suspicious field. -/
def exifSuspicious : ExifReport :=
  { fields_found := 1, has_thumbnail := false, thumbnail_size_bytes := none,
    comment_fields := [], suspicious_fields := ["Unusually large field: UserComment"],
    metadata := [] }

/-- An image analysis carrying only the suspicious EXIF metadata signal. -/
def imageExifOnly : ImageAnalysis :=
  { exif_metadata := some exifSuspicious, lsb_analysis := none,
    filter_analysis := { filters_generated := 0, output_files := [] } }

/-- An ID3 report whose only content is one suspicious frame. -/
def id3Suspicious : Id3Report :=
  { title := none, artist := none, album := none, year := none,
    comments_count := 0, pictures_count := 0, private_frames_count := 1,
    suspicious_frames := ["Private frame with large payload"] }

/-- An audio analysis carrying only the suspicious ID3 metadata signal. -/
def audioId3Only : AudioAnalysis :=
  { sample_count := 0, id3_analysis := some id3Suspicious,
    spectrogram_analysis := none }

/-! ### Helper lemmas -/

lemma determine_file_category_mem (d : String) :
    determine_file_category d ∈ categoryNames := by
  unfold determine_file_category categoryNames
  simp only []
  split_ifs <;> simp

lemma get_categorize (d : String) (s : FormatSummary) {c : String}
    (hc : c ∈ categoryNames) :
    (categorize_file_type d s).get c =
      if determine_file_category d = c then s.get c + 1 else s.get c := by
  have h := determine_file_category_mem d
  simp only [categoryNames, List.mem_cons, List.not_mem_nil, or_false] at h hc
  unfold categorize_file_type FormatSummary.get
  rcases h with h | h | h | h | h | h | h <;> rw [h] <;>
    rcases hc with hc | hc | hc | hc | hc | hc | hc <;> subst hc <;> simp

lemma get_foldl_categorize (l : List EmbeddedFile) (s : FormatSummary) {c : String}
    (hc : c ∈ categoryNames) :
    (l.foldl (fun s r => categorize_file_type r.description s) s).get c =
      s.get c + countCategory c l := by
  induction l generalizing s with
  | nil => simp [countCategory]
  | cons r t ih =>
      rw [List.foldl_cons, ih, get_categorize r.description s hc]
      unfold countCategory
      by_cases h : determine_file_category r.description = c <;>
        simp [List.filter_cons, h] <;> omega

lemma get_decrement (d : String) (s : FormatSummary) {c : String}
    (hc : c ∈ categoryNames) :
    (decrement_primary d s).get c =
      if determine_file_category d = c then s.get c - 1 else s.get c := by
  have h := determine_file_category_mem d
  simp only [categoryNames, List.mem_cons, List.not_mem_nil, or_false] at h hc
  unfold decrement_primary FormatSummary.get
  rcases h with h | h | h | h | h | h | h <;> rw [h] <;>
    rcases hc with hc | hc | hc | hc | hc | hc | hc <;> subst hc <;> simp

lemma get_default (c : String) : (({} : FormatSummary)).get c = 0 := by
  unfold FormatSummary.get
  split_ifs <;> rfl

/-- The final tally equals the plain per-category count of the merged match
list: the extra primary-format count and the final decrement cancel. -/
lemma computeFormatSummary_get (results : List EmbeddedFile) {c : String}
    (hc : c ∈ categoryNames) :
    (computeFormatSummary results).get c = countCategory c results := by
  unfold computeFormatSummary
  cases results with
  | nil => simp [countCategory, get_foldl_categorize _ _ hc, get_default]
  | cons r t =>
      by_cases h0 : r.offset = 0
      · simp only [List.head?_cons, h0, if_true]
        rw [get_decrement _ _ hc, get_foldl_categorize _ _ hc,
          get_categorize _ _ hc, get_default]
        by_cases h : determine_file_category r.description = c <;>
          simp [countCategory, List.filter_cons, h]
      · simp only [List.head?_cons, h0, if_false]
        rw [get_foldl_categorize _ _ hc, get_default]
        omega

lemma scanFrom_mem {data sig : List ℕ} {description : String} :
    ∀ (fuel pos : ℕ) (e : EmbeddedFile), e ∈ scanFrom data sig description fuel pos →
      e.description ∈ riffDescriptions ∨ e.offset = 0 ∨
        is_likely_real_file data e.offset 0 = true := by
  intro fuel
  induction fuel with
  | zero => intro pos e h; simp [scanFrom] at h
  | succ n ih =>
      intro pos e h
      rw [scanFrom] at h
      by_cases h1 : pos ≤ data.length - sig.length
      · rw [if_pos h1] at h
        by_cases h2 : sig.isPrefixOf (data.drop pos) = true
        · rw [if_pos h2, List.mem_append] at h
          rcases h with h | h
          · by_cases h3 : strContains description "RIFF" = true
            · rw [if_pos h3] at h
              split at h <;> [skip; simp at h]
              dsimp only [] at h
              split at h
              · simp at h; subst h; left; simp [riffDescriptions]
              · split at h
                · simp at h; subst h; left; simp [riffDescriptions]
                · split at h
                  · simp at h; subst h; left; simp [riffDescriptions]
                  · simp at h
            · rw [if_neg h3] at h
              split at h
              · next hcond =>
                  simp at h; subst h
                  simp only [Bool.or_eq_true, beq_iff_eq] at hcond
                  rcases hcond with hc | hc
                  · right; left; exact hc
                  · right; right; exact hc
              · simp at h
          · exact ih _ e h
        · rw [if_neg h2] at h
          exact ih _ e h
      · rw [if_neg h1] at h
        simp at h

/-- Every manual-scan result comes from one of the signature loops. -/
lemma manual_signature_scan_mem {data : List ℕ} {e : EmbeddedFile}
    (h : e ∈ manual_signature_scan data) :
    ∃ s ∈ signatureTable, e ∈ scanFrom data s.1 s.2.1 (data.length + 1) 0 := by
  unfold manual_signature_scan at h
  have key : ∀ (sigs : List (List ℕ × String × Bool)) (acc : List EmbeddedFile),
      e ∈ sigs.foldl
        (fun results s =>
          if s.2.2 then results ++ scanFrom data s.1 s.2.1 (data.length + 1) 0 else results)
        acc →
      e ∈ acc ∨ ∃ s ∈ sigs, e ∈ scanFrom data s.1 s.2.1 (data.length + 1) 0 := by
    intro sigs
    induction sigs with
    | nil => intro acc h; simp at h; exact Or.inl h
    | cons s t ih =>
        intro acc h
        rw [List.foldl_cons] at h
        rcases ih _ h with h' | h'
        · split at h'
          · rw [List.mem_append] at h'
            rcases h' with h' | h'
            · exact Or.inl h'
            · exact Or.inr ⟨s, List.mem_cons_self .., h'⟩
          · exact Or.inl h'
        · obtain ⟨s', hs', he⟩ := h'
          exact Or.inr ⟨s', List.mem_cons_of_mem _ hs', he⟩
  rcases key signatureTable [] h with h' | h'
  · simp at h'
  · exact h'

/-! ### Claim C3 -/

/-- C3: the claim states that the offset-0 (primary) match is excluded from
the `FormatTally` category counts.  Counterexample: a single PNG match at
offset 0 leaves `image_files = 1`, not 0 — the pre-count while naming the
primary format, the loop count and the single decrement net to one. -/
theorem C3_counterexample :
    (computeFormatSummary [pngMatch0]).image_files = 1 ∧
      (computeFormatSummary [pngMatch0]).image_files ≠ 0 := by decide

/-- C3 (amended): every match, including the offset-0 primary one,
contributes exactly one to the tally — for each category the final tally
equals the plain count of all matches in that category. -/
theorem C3_tally_counts_every_match (results : List EmbeddedFile) (c : String)
    (hc : c ∈ categoryNames) :
    (computeFormatSummary results).get c = countCategory c results :=
  computeFormatSummary_get results hc

/-- Witness for `C3_tally_counts_every_match` at a concrete offset-0 list. -/
theorem C3_tally_counts_every_match_witness :
    (computeFormatSummary [pngMatch0]).get "Image" = countCategory "Image" [pngMatch0] :=
  C3_tally_counts_every_match [pngMatch0] "Image" (by decide)

/-! ### Claim C7 -/

/-- C7: the claim states every manual match at offset > 0 is kept only when
preceded by 4 uniform padding bytes or 512/1024-aligned.  Counterexample:
a RIFF/WAVE hit at the unaligned, unpadded offset 1 of `riffBuffer` is
reported, because the RIFF sub-branch never calls `is_likely_real_file`. -/
theorem C7_counterexample :
    riffMatch1 ∈ manual_signature_scan riffBuffer ∧ 0 < riffMatch1.offset ∧
      is_likely_real_file riffBuffer riffMatch1.offset 0 = false := by decide

/-- C7 (amended): every NON-RIFF manual match at offset > 0 passes the
padding-or-alignment filter `is_likely_real_file`; RIFF-family matches
(WAV/AVI/WebP) bypass it. -/
theorem C7_non_riff_matches_filtered (data : List ℕ) (e : EmbeddedFile)
    (he : e ∈ manual_signature_scan data) (hoff : 0 < e.offset)
    (hriff : e.description ∉ riffDescriptions) :
    is_likely_real_file data e.offset 0 = true := by
  obtain ⟨s, _, hmem⟩ := manual_signature_scan_mem he
  rcases scanFrom_mem _ _ e hmem with h | h | h
  · exact absurd h hriff
  · omega
  · exact h

/-- Witness for `C7_non_riff_matches_filtered`: the padded ID3 hit at
offset 7 of `id3Buffer`. -/
theorem C7_non_riff_matches_filtered_witness :
    is_likely_real_file id3Buffer id3Match7.offset 0 = true :=
  C7_non_riff_matches_filtered id3Buffer id3Match7 (by decide) (by decide) (by decide)

/-! ### Claim C8 -/

/-- C8: the claim states that a video result with a non-empty flagged-frame
list yields a suspicious-video-frames indicator and `detected = true`.
Counterexample: the report built from a run with flagged frame 3 produces
no indicator at all and `detected = false` — `VideoAnalysis` carries no
flagged-frame data and `finalize_summary` ignores video results. -/
theorem C8_counterexample :
    (finalizeSummary none
        (.Video (videoAnalysisOf 10 0 [3]))).steganography_detected = false ∧
      (finalizeSummary none (.Video (videoAnalysisOf 10 0 [3]))).threat_indicators = [] :=
  ⟨rfl, rfl⟩

/-- C8 (amended): a video result contributes nothing to the verdict — the
summary equals the one computed with no format-specific result at all,
whatever frames were flagged. -/
theorem C8_video_contributes_nothing (magic : Option MagicBytesReport)
    (frame_count error_count : ℕ) (flagged : List ℕ) :
    finalizeSummary magic (.Video (videoAnalysisOf frame_count error_count flagged)) =
      finalizeSummary magic .Unknown := rfl

/-! ### Claims C1, C2, C10: the aggregator -/

lemma magicAnalyze_id3Buffer : magicAnalyze id3Buffer none [] = Except.ok id3Analysis := by
  unfold magicAnalyze
  rw [if_neg (by decide)]
  have h1 : manual_signature_scan id3Buffer = [id3Match0, id3Match7] := by decide
  have h2 : mergeManual (([] : List BinwalkSig).map binwalkToEmbedded)
      [id3Match0, id3Match7] = [id3Match0, id3Match7] := by decide
  have h3 : sortResults [id3Match0, id3Match7] = [id3Match0, id3Match7] :=
    List.mergeSort_of_sorted (by decide)
  rw [h1, h2, h3]
  rfl

lemma magicAnalyzeCore_findings_ne_nil (file_data : List ℕ)
    (expected_format : Option String) (all_results : List EmbeddedFile)
    (h : (magicAnalyzeCore file_data expected_format all_results).has_multiple_formats
      = true) :
    (magicAnalyzeCore file_data expected_format all_results).suspicious_findings ≠ [] := by
  unfold magicAnalyzeCore at h ⊢
  dsimp only at h ⊢
  intro hcontra
  rw [h] at hcontra
  simp [List.append_eq_nil] at hcontra

lemma finalize_findings_detected (m : MagicBytesReport)
    (fmt : FormatSpecificAnalysis) (h : m.suspicious_findings ≠ []) :
    (finalizeSummary (some m) fmt).steganography_detected = true := by
  unfold finalizeSummary
  dsimp only
  have hne : m.suspicious_findings.isEmpty = false := by
    simpa [List.isEmpty_iff] using h
  simp [hne]

/-- C1: the claim states that with multiple formats but no complete-header
match past offset 0, no extension mismatch and no polyglot, the verdict has
`detected = false`.  Counterexample: `id3Buffer` satisfies all those
hypotheses, yet `detected = true`, because the scanner itself appends a
"Multiple file signatures detected" string to `suspicious_findings` and
`finalize_summary` treats any non-empty findings list as detection. -/
theorem C1_counterexample :
    magicAnalyze id3Buffer none [] = Except.ok id3Analysis ∧
      id3Analysis.has_multiple_formats = true ∧
      id3Analysis.has_suspicious_data = false ∧
      (∀ e ∈ id3Analysis.embedded_files,
        0 < e.offset → is_complete_file_signature e.description = false) ∧
      extensionMismatch id3Analysis.expected_format id3Analysis.primary_format = [] ∧
      isPolyglot id3Analysis.format_summary = false ∧
      (finalizeSummary (some (magicReportOf id3Analysis))
          .Unknown).steganography_detected = true :=
  ⟨magicAnalyze_id3Buffer, by decide, by decide, by decide, by decide, by decide, by decide⟩

/-- C1 (amended): the multiple-formats indicator alone DOES set `detected`:
whenever the scan reports `has_multiple_formats`, the scanner has pushed a
finding into `suspicious_findings`, so the final verdict has
`detected = true` regardless of the other conditions. -/
theorem C1_multiple_formats_sets_detected (file_data : List ℕ)
    (expected_format : Option String) (binwalk_results : List BinwalkSig)
    (analysis : MagicBytesAnalysis) (fmt : FormatSpecificAnalysis)
    (hok : magicAnalyze file_data expected_format binwalk_results = Except.ok analysis)
    (hm : analysis.has_multiple_formats = true) :
    (finalizeSummary (some (magicReportOf analysis)) fmt).steganography_detected = true := by
  unfold magicAnalyze at hok
  split at hok
  · exact absurd hok (by simp)
  · rw [Except.ok.injEq] at hok
    subst hok
    exact finalize_findings_detected _ _ (magicAnalyzeCore_findings_ne_nil _ _ _ hm)

/-- Witness for `C1_multiple_formats_sets_detected` on `id3Buffer`. -/
theorem C1_multiple_formats_sets_detected_witness :
    (finalizeSummary (some (magicReportOf id3Analysis))
        .Unknown).steganography_detected = true :=
  C1_multiple_formats_sets_detected id3Buffer none [] id3Analysis .Unknown
    magicAnalyze_id3Buffer (by decide)

lemma finalize_confidence_def (magic : Option MagicBytesReport)
    (fmt : FormatSpecificAnalysis) :
    (finalizeSummary magic fmt).confidence_level =
      if 3 ≤ (finalizeSummary magic fmt).threat_indicators.length then "high"
      else if 1 ≤ (finalizeSummary magic fmt).threat_indicators.length then "medium"
      else "low" := rfl

lemma finalize_detected_imp (magic : Option MagicBytesReport)
    (fmt : FormatSpecificAnalysis)
    (h : (finalizeSummary magic fmt).steganography_detected = true) :
    (finalizeSummary magic fmt).threat_indicators ≠ [] := by
  unfold finalizeSummary at h ⊢
  dsimp only at h ⊢
  intro hnil
  rw [List.append_eq_nil] at hnil
  obtain ⟨hmagic, hfmt⟩ := hnil
  rw [Bool.or_eq_true] at h
  rcases h with h | h
  · cases magic with
    | none => simp at h
    | some m =>
        simp only [List.append_eq_nil] at hmagic
        obtain ⟨⟨h1, h2⟩, h3⟩ := hmagic
        rw [Bool.or_eq_true] at h
        rcases h with h | h
        · rw [h] at h1; simp at h1
        · rw [if_pos h] at h3
          rw [h3] at h
          simp at h
  · cases fmt with
    | Image img =>
        dsimp only at h hfmt
        cases himg : img.lsb_analysis with
        | none => rw [himg] at h; simp at h
        | some lsb =>
            rw [himg] at h hfmt
            simp only [List.append_eq_nil] at hfmt
            rw [if_pos h] at hfmt
            simp at hfmt
    | Audio a =>
        dsimp only at h hfmt
        cases ha : a.spectrogram_analysis with
        | none => rw [ha] at h; simp at h
        | some sp =>
            rw [ha] at h hfmt
            simp only [List.append_eq_nil] at hfmt
            rw [if_pos h] at hfmt
            simp at hfmt
    | Video v => simp at h
    | Text t => simp at h
    | Unknown => simp at h

/-- C2 (confirmed): the confidence label is "high" for at least 3
indicators, "medium" for 1 or 2, "low" for none, and with zero indicators
the verdict is negative. -/
theorem C2_confidence_thresholds (magic : Option MagicBytesReport)
    (fmt : FormatSpecificAnalysis) :
    (3 ≤ (finalizeSummary magic fmt).threat_indicators.length →
      (finalizeSummary magic fmt).confidence_level = "high") ∧
    ((finalizeSummary magic fmt).threat_indicators.length = 1 ∨
        (finalizeSummary magic fmt).threat_indicators.length = 2 →
      (finalizeSummary magic fmt).confidence_level = "medium") ∧
    ((finalizeSummary magic fmt).threat_indicators.length = 0 →
      (finalizeSummary magic fmt).confidence_level = "low") ∧
    ((finalizeSummary magic fmt).threat_indicators.length = 0 →
      (finalizeSummary magic fmt).steganography_detected = false) := by
  refine ⟨?_, ?_, ?_, ?_⟩
  · intro h; rw [finalize_confidence_def, if_pos h]
  · intro h; rw [finalize_confidence_def, if_neg (by omega), if_pos (by omega)]
  · intro h; rw [finalize_confidence_def, if_neg (by omega), if_neg (by omega)]
  · intro h
    by_contra hd
    rw [Bool.not_eq_false] at hd
    exact finalize_detected_imp magic fmt hd (List.length_eq_zero.mp h)

/-- Witness for `C2_confidence_thresholds` at three concrete reports. -/
theorem C2_confidence_thresholds_witness :
    (finalizeSummary (some magicReportThree) .Unknown).confidence_level = "high" ∧
      (finalizeSummary (some magicReportOne) .Unknown).confidence_level = "medium" ∧
      (finalizeSummary none .Unknown).confidence_level = "low" ∧
      (finalizeSummary none .Unknown).steganography_detected = false :=
  ⟨(C2_confidence_thresholds (some magicReportThree) .Unknown).1 (by decide),
   (C2_confidence_thresholds (some magicReportOne) .Unknown).2.1 (Or.inl (by decide)),
   (C2_confidence_thresholds none .Unknown).2.2.1 (by decide),
   (C2_confidence_thresholds none .Unknown).2.2.2 (by decide)⟩

/-- C10 (confirmed): when the only suspicion signals are suspicious EXIF
fields or suspicious ID3 frames (quiet signature scan, no format-specific
suspicious flag), the verdict has `detected = false` yet a non-empty
indicator list, so the confidence is "medium" or "high". -/
theorem C10_metadata_indicators_without_detection :
    (∀ (magic : Option MagicBytesReport) (img : ImageAnalysis),
      magicQuiet magic →
      (∀ lsb, img.lsb_analysis = some lsb → lsb.is_suspicious = false) →
      (∀ exif, img.exif_metadata = some exif → exif.suspicious_fields ≠ []) →
      img.exif_metadata ≠ none →
      (finalizeSummary magic (.Image img)).steganography_detected = false ∧
        (finalizeSummary magic (.Image img)).threat_indicators ≠ [] ∧
        ((finalizeSummary magic (.Image img)).confidence_level = "medium" ∨
          (finalizeSummary magic (.Image img)).confidence_level = "high")) ∧
    (∀ (magic : Option MagicBytesReport) (audio : AudioAnalysis),
      magicQuiet magic →
      (∀ sp, audio.spectrogram_analysis = some sp → sp.hidden_message_detected = false) →
      (∀ id3, audio.id3_analysis = some id3 → id3.suspicious_frames ≠ []) →
      audio.id3_analysis ≠ none →
      (finalizeSummary magic (.Audio audio)).steganography_detected = false ∧
        (finalizeSummary magic (.Audio audio)).threat_indicators ≠ [] ∧
        ((finalizeSummary magic (.Audio audio)).confidence_level = "medium" ∨
          (finalizeSummary magic (.Audio audio)).confidence_level = "high")) := by
  constructor
  · intro magic img hq hlsb hexif hne
    rcases hE : img.exif_metadata with _ | exif
    · exact absurd hE hne
    · have hsf : exif.suspicious_fields.isEmpty = false := by
        simpa [List.isEmpty_iff] using hexif exif hE
      rcases hL : img.lsb_analysis with _ | lsb
      · cases magic with
        | none =>
            refine ⟨?_, ?_, Or.inl ?_⟩ <;> simp [finalizeSummary, hE, hL, hsf]
        | some m =>
            obtain ⟨h1, h2, h3⟩ := hq
            refine ⟨?_, ?_, Or.inl ?_⟩ <;>
              simp [finalizeSummary, hE, hL, hsf, h1, h2, h3]
      · have hls : lsb.is_suspicious = false := hlsb lsb hL
        cases magic with
        | none =>
            refine ⟨?_, ?_, Or.inl ?_⟩ <;> simp [finalizeSummary, hE, hL, hsf, hls]
        | some m =>
            obtain ⟨h1, h2, h3⟩ := hq
            refine ⟨?_, ?_, Or.inl ?_⟩ <;>
              simp [finalizeSummary, hE, hL, hsf, hls, h1, h2, h3]
  · intro magic audio hq hsp hid3 hne
    rcases hI : audio.id3_analysis with _ | id3
    · exact absurd hI hne
    · have hsf : id3.suspicious_frames.isEmpty = false := by
        simpa [List.isEmpty_iff] using hid3 id3 hI
      rcases hS : audio.spectrogram_analysis with _ | sp
      · cases magic with
        | none =>
            refine ⟨?_, ?_, Or.inl ?_⟩ <;> simp [finalizeSummary, hI, hS, hsf]
        | some m =>
            obtain ⟨h1, h2, h3⟩ := hq
            refine ⟨?_, ?_, Or.inl ?_⟩ <;>
              simp [finalizeSummary, hI, hS, hsf, h1, h2, h3]
      · have hhd : sp.hidden_message_detected = false := hsp sp hS
        cases magic with
        | none =>
            refine ⟨?_, ?_, Or.inl ?_⟩ <;> simp [finalizeSummary, hI, hS, hsf, hhd]
        | some m =>
            obtain ⟨h1, h2, h3⟩ := hq
            refine ⟨?_, ?_, Or.inl ?_⟩ <;>
              simp [finalizeSummary, hI, hS, hsf, hhd, h1, h2, h3]

/-- Witness for `C10_metadata_indicators_without_detection`: an image with
one suspicious EXIF field and no other signal. -/
theorem C10_metadata_indicators_without_detection_witness :
    (finalizeSummary none (.Image imageExifOnly)).steganography_detected = false ∧
      (finalizeSummary none (.Image imageExifOnly)).threat_indicators ≠ [] ∧
      ((finalizeSummary none (.Image imageExifOnly)).confidence_level = "medium" ∨
        (finalizeSummary none (.Image imageExifOnly)).confidence_level = "high") :=
  C10_metadata_indicators_without_detection.1 none imageExifOnly trivial
    (fun lsb h => by simp [imageExifOnly] at h)
    (fun exif h => by
      have hx : exif = exifSuspicious := by simpa [imageExifOnly] using h.symm
      simp [hx, exifSuspicious])
    (by simp [imageExifOnly])

/-! ### Claim C4: the LSB analyzer on zero-dimension images -/

lemma pixelsRowMajor_eq_nil {img : RgbaImage} (h : img.width = 0 ∨ img.height = 0) :
    pixelsRowMajor img = [] := by
  unfold pixelsRowMajor
  rcases h with h | h <;> simp [h]

/-- C4 (code bug): the claim — backed by the spec's error taxonomy — says a
zero-width or zero-height image yields a `MalformedImage` error.  The code
instead panics: `visualize_lsb_plane` computes
`(0u32 + 0 - 1) / 0`, an arithmetic underflow (debug) or division by zero
(release), before any error could be returned.  The panic is the `none`
value of the model. -/
theorem C4_zero_dimension_panics (img : RgbaImage)
    (h : img.width = 0 ∨ img.height = 0) :
    LsbAnalyzer.analyze img = none := by
  have hex : ∀ c : Fin 4, LsbAnalyzer.extract_lsb_plane img c = [] := by
    intro c
    unfold LsbAnalyzer.extract_lsb_plane
    rw [pixelsRowMajor_eq_nil h]
    rfl
  unfold LsbAnalyzer.analyze
  simp only [hex]
  rfl

/-- Witness for `C4_zero_dimension_panics` on the 0×0 image. -/
theorem C4_zero_dimension_panics_witness : LsbAnalyzer.analyze zeroImage = none :=
  C4_zero_dimension_panics zeroImage (Or.inl rfl)

/-! ### Claim C5: chi-square at zero pairs -/

lemma pairValues_eq_nil : ∀ {bs : List ℕ}, bs.length / 2 = 0 → pairValues bs = []
  | [], _ => rfl
  | [_], _ => rfl
  | _ :: _ :: rest, h => by simp [List.length_cons] at h; omega

/-- C5: the claim states the pair chi-square returns 0 at zero pairs in
BOTH analyzers.  Counterexample: the image analyzer's `calculate_chi_square`
on the empty bit sequence evaluates `0.0 / 0.0` four times and returns
NaN, not 0 — its division is unguarded. -/
theorem C5_counterexample :
    LsbAnalyzer.calculate_chi_square [] 0 = FpVal.nan ∧
      LsbAnalyzer.calculate_chi_square [] 0 ≠ FpVal.fin 0 := by
  have hnan : LsbAnalyzer.calculate_chi_square [] 0 = FpVal.nan := by
    simp [LsbAnalyzer.calculate_chi_square, pairValues, fpDiv, FpVal.add]
  exact ⟨hnan, by rw [hnan]; exact fun hc => FpVal.noConfusion hc⟩

/-- C5 (amended): at zero pairs the video frame analyzer's guarded
chi-square returns 0, while the image LSB analyzer's unguarded one returns
NaN. -/
theorem C5_chi_square_zero_pairs (lsb_data : List ℕ)
    (h : lsb_data.length / 2 = 0) :
    VideoFrameAnalyzer.calculate_chi_square lsb_data = 0 ∧
      LsbAnalyzer.calculate_chi_square lsb_data 0 = FpVal.nan := by
  have hp := pairValues_eq_nil h
  constructor
  · simp [VideoFrameAnalyzer.calculate_chi_square, hp, h]
  · simp [LsbAnalyzer.calculate_chi_square, hp, h, fpDiv, FpVal.add]

/-- Witness for `C5_chi_square_zero_pairs` at the one-bit sequence. -/
theorem C5_chi_square_zero_pairs_witness :
    VideoFrameAnalyzer.calculate_chi_square [1] = 0 ∧
      LsbAnalyzer.calculate_chi_square [1] 0 = FpVal.nan :=
  C5_chi_square_zero_pairs [1] (by decide)

/-! ### Claim C6: spectrogram frame count -/

/-- C6: the claim states every non-empty sample sequence yields exactly
`floor((len − 2048)/512) + 1` frames.  Counterexample: 100 samples (a
non-empty input the analyzer accepts) yield 0 frames, while the formula
gives −3. -/
theorem C6_counterexample :
    (SpectrogramAnalyzer.generate_spectrogram id (List.replicate 100 0) 2048 512).length
        = 0 ∧
      Int.fdiv ((100 : ℤ) - 2048) 512 + 1 = -3 ∧
      ((SpectrogramAnalyzer.generate_spectrogram id
          (List.replicate 100 0) 2048 512).length : ℤ) ≠
        Int.fdiv ((100 : ℤ) - 2048) 512 + 1 := by
  have h0 :
      (SpectrogramAnalyzer.generate_spectrogram id (List.replicate 100 0) 2048 512).length
        = 0 := by
    unfold SpectrogramAnalyzer.generate_spectrogram
    norm_num [List.takeWhile]
  refine ⟨h0, by decide, ?_⟩
  rw [h0]
  decide

/-- C6 (amended): for at least `window_size = 2048` samples the analyzer
produces exactly `(len − 2048)/512 + 1` frames, each holding the first
1024 magnitude bins; shorter (even non-empty) inputs produce no frames.
The FFT collaborator is assumed length-preserving. -/
theorem C6_frame_count (samples : List ℝ) (fft : List (ℝ × ℝ) → List (ℝ × ℝ))
    (hfft : ∀ l, (fft l).length = l.length) :
    (2048 ≤ samples.length →
      (SpectrogramAnalyzer.generate_spectrogram fft samples 2048 512).length =
        (samples.length - 2048) / 512 + 1 ∧
      ∀ frame ∈ SpectrogramAnalyzer.generate_spectrogram fft samples 2048 512,
        frame.length = 1024) ∧
    (samples.length < 2048 →
      (SpectrogramAnalyzer.generate_spectrogram fft samples 2048 512).length = 0) := by
  constructor
  · intro hlen
    have hdivmul : (samples.length - 2048) / 512 * 512 ≤ samples.length - 2048 :=
      Nat.div_mul_le_self _ _
    have hall : ∀ i ∈ List.range ((samples.length - 2048) / 512 + 1),
        (decide (i * 512 + 2048 ≤ samples.length)) = true := by
      intro i hi
      rw [List.mem_range] at hi
      have hle : i ≤ (samples.length - 2048) / 512 := by omega
      have : i * 512 ≤ (samples.length - 2048) / 512 * 512 :=
        Nat.mul_le_mul_right _ hle
      simp only [decide_eq_true_eq]
      omega
    have htw :
        (List.range ((samples.length - 2048) / 512 + 1)).takeWhile
            (fun frame_idx => decide (frame_idx * 512 + 2048 ≤ samples.length)) =
          List.range ((samples.length - 2048) / 512 + 1) :=
      List.takeWhile_eq_self_iff.mpr (fun i hi => hall i hi)
    constructor
    · unfold SpectrogramAnalyzer.generate_spectrogram
      rw [List.length_map, htw, List.length_range]
    · intro frame hframe
      unfold SpectrogramAnalyzer.generate_spectrogram at hframe
      rw [List.mem_map] at hframe
      obtain ⟨i, hi, hfi⟩ := hframe
      have hp := List.mem_takeWhile_imp hi
      simp only [decide_eq_true_eq] at hp
      subst hfi
      rw [List.length_map, List.length_take, hfft, List.length_zipWith,
        List.length_take, List.length_drop, List.length_map, List.length_range]
      omega
  · intro hlen
    have h2 : samples.length - 2048 = 0 := by omega
    unfold SpectrogramAnalyzer.generate_spectrogram
    rw [h2]
    have hne : (decide (0 * 512 + 2048 ≤ samples.length)) = false := by
      simp only [decide_eq_false_iff_not]
      omega
    dsimp only
    rw [show (0 : ℕ) / 512 + 1 = 1 by norm_num,
      show List.range 1 = [0] from rfl, List.takeWhile_cons, hne]
    rfl

/-- Witness for `C6_frame_count`: exactly one frame of 1024 bins for a
window-sized input under the identity FFT. -/
theorem C6_frame_count_witness :
    (SpectrogramAnalyzer.generate_spectrogram id
        (List.replicate 2048 0) 2048 512).length = 1 := by
  have hlen : (List.replicate 2048 (0 : ℝ)).length = 2048 := List.length_replicate _ _
  have h := (C6_frame_count (List.replicate 2048 0) id (fun l => rfl)).1
    (le_of_eq hlen.symm)
  rw [h.1, hlen]

/-! ### Claim C9: Shannon entropy of LSB bit sequences -/

lemma calculate_entropy_expand (bs : List ℕ) (ch : ℕ) :
    LsbAnalyzer.calculate_entropy bs ch =
      (let c0 := (bs.filter (fun b => b = 0)).length
       let c1 := (bs.filter (fun b => b = 1)).length
       let total : ℝ := (bs.length : ℝ)
       let e0 : ℝ :=
         if 0 < c0 then 0 - ((c0 : ℝ) / total) * Real.logb 2 ((c0 : ℝ) / total) else 0
       if 0 < c1 then e0 - ((c1 : ℝ) / total) * Real.logb 2 ((c1 : ℝ) / total) else e0) :=
  rfl

lemma count_bits_add {bs : List ℕ} (hb : ∀ b ∈ bs, b ≤ 1) :
    (bs.filter (fun b => b = 0)).length + (bs.filter (fun b => b = 1)).length =
      bs.length := by
  induction bs with
  | nil => rfl
  | cons b t ih =>
      have hbt : ∀ x ∈ t, x ≤ 1 := fun x hx => hb x (List.mem_cons_of_mem _ hx)
      have hb0 : b ≤ 1 := hb b (List.mem_cons_self ..)
      interval_cases b <;> simp [List.filter_cons, ← ih hbt] <;> omega

lemma entropy_formula (c0 c1 n : ℕ) (hsum : c0 + c1 = n) (hn : 0 < n) :
    (let total : ℝ := (n : ℝ)
     let e0 : ℝ :=
       if 0 < c0 then 0 - ((c0 : ℝ) / total) * Real.logb 2 ((c0 : ℝ) / total) else 0
     if 0 < c1 then e0 - ((c1 : ℝ) / total) * Real.logb 2 ((c1 : ℝ) / total) else e0) =
      Real.binEntropy ((c0 : ℝ) / (n : ℝ)) / Real.log 2 := by
  dsimp only
  have hnR : (n : ℝ) ≠ 0 := Nat.cast_ne_zero.mpr hn.ne'
  have hcast : (c0 : ℝ) + (c1 : ℝ) = (n : ℝ) := by exact_mod_cast hsum
  by_cases h0 : 0 < c0
  · by_cases h1 : 0 < c1
    · have hq : (1 : ℝ) - (c0 : ℝ) / (n : ℝ) = (c1 : ℝ) / (n : ℝ) := by
        field_simp
        linarith
      rw [if_pos h0, if_pos h1, Real.binEntropy, hq,
        Real.log_inv, Real.log_inv, Real.logb, Real.logb]
      field_simp
      ring
    · have hc0n : c0 = n := by omega
      subst hc0n
      rw [if_pos h0, if_neg h1, div_self hnR]
      simp
  · have hc0z : c0 = 0 := by omega
    subst hc0z
    by_cases h1 : 0 < c1
    · have hc1n : c1 = n := by omega
      subst hc1n
      rw [if_neg h0, if_pos h1, div_self hnR]
      simp
    · omega

lemma entropy_eq_binEntropy {bs : List ℕ} (hb : ∀ b ∈ bs, b ≤ 1) (hne : bs ≠ []) :
    LsbAnalyzer.calculate_entropy bs 0 =
      Real.binEntropy (((bs.filter (fun b => b = 0)).length : ℝ) / (bs.length : ℝ)) /
        Real.log 2 := by
  rw [calculate_entropy_expand]
  exact entropy_formula _ _ _ (count_bits_add hb) (List.length_pos.mpr hne)

/-- C9: the claim asserts entropy within 0.01 of 1.0 for EVERY perfectly
alternating sequence of length ≥ 2.  Counterexample: the alternating
sequence `[0, 1, 0]` of length 3 has entropy `log₂ 3 − 2/3 ≈ 0.918`,
which is more than 0.01 away from 1. -/
theorem C9_counterexample :
    ¬ (|LsbAnalyzer.calculate_entropy (alternatingBits 3) 0 - 1| ≤ 1 / 100) := by
  have halt : alternatingBits 3 = [0, 1, 0] := rfl
  have hval : LsbAnalyzer.calculate_entropy [0, 1, 0] 0 = Real.logb 2 3 - 2 / 3 := by
    rw [calculate_entropy_expand]
    norm_num
    have h23 : Real.logb 2 (2 / 3) = 1 - Real.logb 2 3 := by
      rw [Real.logb_div (by norm_num) (by norm_num), Real.logb_self_eq_one one_lt_two]
    have h13 : Real.logb 2 ((1 : ℝ) / 3) = -Real.logb 2 3 := by
      rw [one_div, Real.logb_inv]
    rw [h23, h13]
    ring
  have hbound : Real.logb 2 3 < 8 / 5 := by
    rw [Real.logb, div_lt_iff (Real.log_pos one_lt_two)]
    have h243 : Real.log 243 < Real.log 256 :=
      Real.log_lt_log (by norm_num) (by norm_num)
    have h3 : Real.log 243 = 5 * Real.log 3 := by
      rw [show (243 : ℝ) = 3 ^ (5 : ℕ) by norm_num, Real.log_pow]
      norm_num
    have h2 : Real.log 256 = 8 * Real.log 2 := by
      rw [show (256 : ℝ) = 2 ^ (8 : ℕ) by norm_num, Real.log_pow]
      norm_num
    nlinarith [h243, h3, h2]
  rw [halt, hval]
  intro habs
  rw [abs_le] at habs
  have := habs.1
  nlinarith

/-- C9 (amended): the entropy of every bit sequence lies in `[0, 1]`, it is
0 for all-zero sequences, and for a perfectly alternating sequence of EVEN
length `2k ≥ 2` it equals 1 exactly (hence is within 0.01 of 1.0); odd
alternating lengths violate the 0.01 bound. -/
theorem C9_entropy_properties :
    (∀ bs : List ℕ, (∀ b ∈ bs, b ≤ 1) →
      0 ≤ LsbAnalyzer.calculate_entropy bs 0 ∧
        LsbAnalyzer.calculate_entropy bs 0 ≤ 1) ∧
    (∀ n : ℕ, LsbAnalyzer.calculate_entropy (List.replicate n 0) 0 = 0) ∧
    (∀ k : ℕ, 0 < k →
      |LsbAnalyzer.calculate_entropy (alternatingBits (2 * k)) 0 - 1| ≤ 1 / 100) := by
  have hlog2pos : (0 : ℝ) < Real.log 2 := Real.log_pos one_lt_two
  refine ⟨?_, ?_, ?_⟩
  · intro bs hb
    rcases eq_or_ne bs [] with hbs | hbs
    · subst hbs
      rw [calculate_entropy_expand]
      norm_num
    · rw [entropy_eq_binEntropy hb hbs]
      have hn : 0 < bs.length := List.length_pos.mpr hbs
      have hp0 : (0 : ℝ) ≤ ((bs.filter (fun b => b = 0)).length : ℝ) / (bs.length : ℝ) :=
        div_nonneg (Nat.cast_nonneg _) (Nat.cast_nonneg _)
      have hp1 : ((bs.filter (fun b => b = 0)).length : ℝ) / (bs.length : ℝ) ≤ 1 := by
        rw [div_le_one (by exact_mod_cast hn)]
        exact_mod_cast List.length_filter_le _ _
      constructor
      · exact div_nonneg (Real.binEntropy_nonneg hp0 hp1) hlog2pos.le
      · rw [div_le_one hlog2pos]
        exact Real.binEntropy_le_log_two
  · intro n
    rcases Nat.eq_zero_or_pos n with hn | hn
    · subst hn
      rw [calculate_entropy_expand]
      norm_num
    · rw [calculate_entropy_expand]
      have hf0 : ((List.replicate n 0).filter (fun b => b = 0)) = List.replicate n 0 := by
        simp
      have hf1 : ((List.replicate n 0).filter (fun b => b = 1)) = [] := by
        simp
      rw [hf0, hf1]
      dsimp only
      rw [List.length_replicate]
      have hnR : ((n : ℝ)) ≠ 0 := Nat.cast_ne_zero.mpr hn.ne'
      rw [if_neg (by simp), if_pos hn, div_self hnR]
      simp
  · intro k hk
    have hlen : (alternatingBits (2 * k)).length = 2 * k := by
      simp [alternatingBits]
    have hcounts : ∀ m : ℕ,
        ((alternatingBits (2 * m)).filter (fun b => b = 0)).length = m ∧
          ((alternatingBits (2 * m)).filter (fun b => b = 1)).length = m := by
      intro m
      induction m with
      | zero => simp [alternatingBits]
      | succ j ih =>
          have hsplit : alternatingBits (2 * (j + 1)) =
              alternatingBits (2 * j) ++ [(2 * j) % 2, (2 * j + 1) % 2] := by
            have h2 : 2 * (j + 1) = (2 * j + 1) + 1 := by ring
            rw [alternatingBits, h2, List.range_succ, List.range_succ]
            simp [alternatingBits]
          have hm0 : (2 * j) % 2 = 0 := by omega
          have hm1 : (2 * j + 1) % 2 = 1 := by omega
          rw [hsplit, hm0, hm1]
          constructor <;>
            simp [List.filter_append, List.filter_cons, ih.1, ih.2]
    obtain ⟨hc0, hc1⟩ := hcounts k
    rw [calculate_entropy_expand]
    dsimp only
    rw [hc0, hc1, hlen, if_pos hk, if_pos hk]
    have hfrac : ((k : ℝ)) / (((2 * k : ℕ) : ℝ)) = 1 / 2 := by
      have hkR : ((k : ℝ)) ≠ 0 := Nat.cast_ne_zero.mpr hk.ne'
      push_cast
      field_simp
      ring
    rw [hfrac]
    have hhalf : Real.logb 2 ((1 : ℝ) / 2) = -1 := by
      rw [one_div, Real.logb_inv, Real.logb_self_eq_one one_lt_two]
    rw [hhalf]
    norm_num

/-- Witness for `C9_entropy_properties` at concrete bit sequences. -/
theorem C9_entropy_properties_witness :
    (0 ≤ LsbAnalyzer.calculate_entropy [0, 1] 0 ∧
        LsbAnalyzer.calculate_entropy [0, 1] 0 ≤ 1) ∧
      LsbAnalyzer.calculate_entropy (List.replicate 4 0) 0 = 0 ∧
      |LsbAnalyzer.calculate_entropy (alternatingBits 4) 0 - 1| ≤ 1 / 100 :=
  ⟨C9_entropy_properties.1 [0, 1] (by decide),
   C9_entropy_properties.2.1 4,
   C9_entropy_properties.2.2 2 (by norm_num)⟩

end StegaScan
